import Mathlib

/-!
Verification development for the VesselCert_Backend windowed ingestion
pipeline (src/main.py and src/streamlit_app.py), as a shallow embedding.

Machine conventions used throughout:
  instants and wall-clock labels are integers counting minutes since
  2025-01-01T00:00 (UTC instants, respectively local wall-clock labels);
  byte payloads are lists of naturals below 256; the remote Graph API is
  modelled by the data it returns (a list of responses or pages), and the
  two filesystem/storage effects are recorded as explicit lists.
-/

namespace VesselCert

/-! Section 1: character-list string helpers mirroring the Python string
operations used by src/main.py (lower, endswith, strip, replace, slice). -/

/-- Lowercase a string character by character (Python `str.lower` on the
ASCII inputs this program handles). -/
def pyLower (s : String) : String := ⟨s.data.map Char.toLower⟩

/-- Boolean suffix test on character lists. -/
def endsWithList (s suff : List Char) : Bool :=
  decide (s.reverse.take suff.length = suff.reverse)

/-- Python `str.endswith` on strings. -/
def endsWithCL (s suffix : String) : Bool := endsWithList s.data suffix.data

/-- Whitespace recognised by the model of Python `str.strip`. -/
def isSpaceChar (c : Char) : Bool := c = ' ' || c = '\t' || c = '\n' || c = '\r'

/-- Python `str.strip()`: drop leading and trailing whitespace. -/
def pyStrip (s : String) : String :=
  ⟨((s.data.dropWhile isSpaceChar).reverse.dropWhile isSpaceChar).reverse⟩

/-- Python `s.replace(c, "")` for a single character pattern: remove all
occurrences of the character. -/
def removeChar (c : Char) (s : String) : String := ⟨s.data.filter (fun d => d ≠ c)⟩

/-- Python `s.replace(a, b)` for single-character pattern and replacement. -/
def mapChar (a b : Char) (s : String) : String :=
  ⟨s.data.map (fun d => if d = a then b else d)⟩

/-- Python slice `s[:n]` (first `n` characters). -/
def takeChars (n : Nat) (s : String) : String := ⟨s.data.take n⟩

/-- Python `x or default` applied to an optional string field of a JSON
object: a missing value (None) and the empty string are both falsy and
replaced by the default. -/
def pyOr (o : Option String) (d : String) : String :=
  match o with
  | none => d
  | some s => if s = "" then d else s

/-- Python `str.isdigit`: nonempty and all characters are digits. -/
def pyIsDigitStr (s : String) : Bool := !s.data.isEmpty && s.data.all Char.isDigit

/-- Python `int(s)` on a digit string. -/
def digitsToNat (l : List Char) : Nat := l.foldl (fun a c => a * 10 + (c.toNat - 48)) 0

/-! Section 2: time model.  src/main.py line 114 fixes the zone
Europe/Copenhagen.  We model the year 2025: clocks show UTC+1 (CET,
offset 60 minutes) except between the spring transition
(2025-03-30T01:00Z, local clocks jump 02:00 -> 03:00) and the autumn
transition (2025-10-26T01:00Z, local clocks fall back 03:00 -> 02:00),
where they show UTC+2 (CEST, offset 120 minutes).  2025-03-30 is day 88
and 2025-10-26 is day 298 counted from 2025-01-01 = day 0. -/

/-- Zone offset in minutes in force at a UTC instant. -/
def offsetAtUTC (u : Int) : Int :=
  if 88 * 1440 + 60 ≤ u ∧ u < 298 * 1440 + 60 then 120 else 60

/-- Zone offset in minutes attached by ZoneInfo (fold 0) to a local
wall-clock label: CEST for labels from 03:00 on the spring transition day
up to (not including) 03:00 on the autumn transition day, CET otherwise.
The ambiguous autumn hour 02:00-03:00 resolves to CEST (the offset in
force before the transition), matching fold 0. -/
def offsetAtLocal (w : Int) : Int :=
  if 88 * 1440 + 180 ≤ w ∧ w < 298 * 1440 + 180 then 120 else 60

/-- Conversion of a UTC instant to the local wall-clock label
(`datetime.now(tz)` and `astimezone` into the zone). -/
def utcToLocal (u : Int) : Int := u + offsetAtUTC u

/-- Conversion of a local wall-clock label to the UTC instant
(`astimezone(ZoneInfo("UTC"))` on an aware local datetime). -/
def localToUTC (w : Int) : Int := w - offsetAtLocal w

/-- Result of `compute_window_cet` (src/main.py lines 106-126): the five
returned components `(start_utc, end_utc, start_local, end_local, now)`,
with the two UTC components kept as instants rather than ISO strings. -/
structure CetWindow where
  start_utc : Int
  end_utc : Int
  start_local : Int
  end_local : Int
  now_local : Int
  deriving DecidableEq

/-- The `today_six` local datetime of src/main.py line 116:
`now.replace(hour=6, minute=0, second=0, microsecond=0)`, that is, the
wall-clock label of the same local calendar day at 06:00. -/
def today_six (nowUtc : Int) : Int :=
  let nl := utcToLocal nowUtc
  nl - nl % 1440 + 360

/-- Shallow embedding of `compute_window_cet` (src/main.py lines 106-126).
The ambient clock reading `datetime.now(tz)` is passed in as the UTC
instant `nowUtc`.  The comparison `now >= today_six` between two aware
datetimes compares their underlying UTC instants; `timedelta(days=1)`
arithmetic on an aware local datetime is wall-clock arithmetic (it moves
the label by 1440 minutes, not the instant). -/
def compute_window_cet (nowUtc : Int) : CetWindow :=
  let nl := utcToLocal nowUtc
  let tsix := nl - nl % 1440 + 360
  let start_local := if localToUTC tsix ≤ nowUtc then tsix else tsix - 1440
  let end_local := start_local + 1440
  { start_utc := localToUTC start_local
    end_utc := localToUTC end_local
    start_local := start_local
    end_local := end_local
    now_local := nl }

/-- Modelled from the spec (section 4.1 contract words, for comparison
with the source): convert `now` into the zone, construct `cutoffToday` as
the same calendar date at `cutoffHour:00:00.000`, branch on
`now >= cutoffToday`, set `end = start + 24h`, and convert both back to
UTC for output. -/
def computeWindow_spec (now : Int) (cutoffHour : Int) : Int × Int :=
  let nowLocal := utcToLocal now
  let cutoffToday := nowLocal - nowLocal % 1440 + cutoffHour * 60
  let start := if localToUTC cutoffToday ≤ now then cutoffToday else cutoffToday - 1440
  let e := start + 1440
  (localToUTC start, localToUTC e)

/-! Section 3: the retry-aware GET primitive.  A `Response` is one HTTP
response to the (identical, repeated) GET of a fixed URL; the behaviour of
`graph_get` on a URL is a function of the stream of responses the server
would produce for the successive attempts, which we pass in as a list. -/

/-- One HTTP response: status code, optional Retry-After header value and
decoded body. -/
structure Response where
  status : Nat
  retryAfter : Option String
  body : String
  deriving DecidableEq

/-- Shallow embedding of `throttle_sleep` (src/main.py lines 56-63): the
number of seconds slept, namely the Retry-After value when the header is
present and a digit string, and 3 otherwise. -/
def throttle_sleep (r : Response) : Nat :=
  match r.retryAfter with
  | some ra => if pyIsDigitStr ra then digitsToNat ra.data else 3
  | none => 3

/-- Statuses retried by `graph_get` (src/main.py line 69). -/
def isThrottle (s : Nat) : Bool := s == 429 || s == 503 || s == 504

/-- Outcome of `graph_get`: a decoded body, a raised HTTP error carrying
status and body (`raise_for_status` after the error print), or still
inside the retry loop after consuming every provided response. -/
inductive GraphOutcome where
  | ok (body : String)
  | httpError (status : Nat) (body : String)
  | stillRetrying
  deriving DecidableEq

/-- Shallow embedding of `graph_get` (src/main.py lines 65-78) applied to
the stream of responses for the repeated identical request.  Returns the
list of sleeps performed (in order) and the outcome. -/
def graph_get : List Response → List Nat × GraphOutcome
  | [] => ([], .stillRetrying)
  | r :: rest =>
    if isThrottle r.status then
      let p := graph_get rest
      (throttle_sleep r :: p.1, p.2)
    else if 400 ≤ r.status then ([], .httpError r.status r.body)
    else ([], .ok r.body)

/-! Section 4: the message lister. -/

/-- The `MessageSummary` fields projected by the lister, with the received
instant as an integer. -/
structure MsgSummary where
  id : String
  receivedAt : Int
  hasAttachments : Bool
  deriving DecidableEq

/-- Query parameters built by `list_messages_in_window` (src/main.py
lines 137-144): the four OData parameters, as the strings the code puts
into the request. -/
structure QueryParams where
  filter : String
  select : String
  orderby : String
  top : String
  deriving DecidableEq

/-- The parameter dictionary of src/main.py lines 139-144, built from the
ISO window endpoints. -/
def list_messages_params (startIso endIso : String) : QueryParams :=
  { filter := "receivedDateTime ge " ++ startIso ++ " and receivedDateTime lt " ++ endIso
    select := "id,subject,receivedDateTime,hasAttachments"
    orderby := "receivedDateTime desc"
    top := "50" }

/-- One page of the paged message listing: its `value` array and whether
an `@odata.nextLink` is present. -/
structure MsgPage where
  value : List MsgSummary
  nextLink : Bool
  deriving DecidableEq

/-- Shallow embedding of the pagination loop of `list_messages_in_window`
(src/main.py lines 147-153): yield every item of the current page, then
follow the next-page link if present, else stop.  The input list is the
sequence of pages the successive URLs return. -/
def list_messages_in_window : List MsgPage → List MsgSummary
  | [] => []
  | p :: rest => p.value ++ (if p.nextLink then list_messages_in_window rest else [])

/-! Section 5: base64 decoding, modelling Python `base64.b64decode` on a
str argument (used at src/main.py line 174).  The decoder discards
characters outside the base64 alphabet, then requires the count of data
characters to be completable to a multiple of four using the padding
characters present; otherwise it raises `binascii.Error`. -/

/-- Membership in the base64 alphabet (padding excluded). -/
def isB64Char (c : Char) : Bool :=
  ('A' ≤ c && c ≤ 'Z') || ('a' ≤ c && c ≤ 'z') || ('0' ≤ c && c ≤ '9') || c = '+' || c = '/'

/-- Value of a base64 alphabet character. -/
def b64val (c : Char) : Nat :=
  if 'A' ≤ c ∧ c ≤ 'Z' then c.toNat - 65
  else if 'a' ≤ c ∧ c ≤ 'z' then c.toNat - 97 + 26
  else if '0' ≤ c ∧ c ≤ '9' then c.toNat - 48 + 52
  else if c = '+' then 62
  else 63

/-- Decode groups of four base64 characters into bytes, with a two or
three character final group contributing one or two bytes. -/
def decodeGroups : List Char → List Nat
  | a :: b :: c :: d :: rest =>
    (b64val a * 4 + b64val b / 16)
      :: ((b64val b % 16) * 16 + b64val c / 4)
      :: ((b64val c % 4) * 64 + b64val d)
      :: decodeGroups rest
  | [a, b] => [b64val a * 4 + b64val b / 16]
  | [a, b, c] => [b64val a * 4 + b64val b / 16, (b64val b % 16) * 16 + b64val c / 4]
  | _ => []

/-- Python `base64.b64decode` on a str: either the decoded bytes or the
`binascii.Error` message raised on malformed input (for example the
one-character input where the data length is 1 more than a multiple of
four, or missing padding). -/
def b64decode (s : String) : Except String (List Nat) :=
  let ds := s.data.filter isB64Char
  let pads := (s.data.filter (fun c => c = '=')).length
  if ds.length % 4 == 1 then .error "Invalid base64-encoded string"
  else if ds.length % 4 == 0 then .ok (decodeGroups ds)
  else if 4 ≤ ds.length % 4 + pads then .ok (decodeGroups ds)
  else .error "Incorrect padding"

/-! Section 6: attachments, the extractor and the storage sink. -/

/-- One entry of an attachments page, with the four JSON fields the code
reads; a missing field is `none`. -/
structure Attachment where
  odataType : String
  name : Option String
  contentType : Option String
  contentBytes : Option String
  deriving DecidableEq

/-- One message as consumed by `download_pdf_attachments`, together with
the attachment entries its attachments endpoint serves (in page order). -/
structure MailMessage where
  id : String
  subject : Option String
  receivedDateTime : Option String
  hasAttachments : Bool
  attachments : List Attachment
  deriving DecidableEq

/-- The `name` local of src/main.py line 168: `att.get("name") or
"attachment"`. -/
def att_name (a : Attachment) : String := pyOr a.name "attachment"

/-- The `ctype` local of src/main.py line 169: `att.get("contentType") or
""`. -/
def att_ctype (a : Attachment) : String := pyOr a.contentType ""

/-- The `is_pdf` classification of src/main.py line 170:
`ctype.lower() == "application/pdf" or name.lower().endswith(".pdf")`. -/
def is_pdf (a : Attachment) : Bool :=
  (pyLower (att_ctype a) == "application/pdf") || endsWithCL (pyLower (att_name a)) ".pdf"

/-- The `fname` derivation of src/main.py lines 176-178: the
receivedDateTime with colon and dash characters removed, two underscores,
the stripped subject with slashes replaced by underscores and truncated
to 80 characters, two underscores, then the attachment name. -/
def derive_fname (m : MailMessage) (name : String) : String :=
  let rdt := removeChar '-' (removeChar ':' (m.receivedDateTime.getD ""))
  let subj := takeChars 80 (mapChar '/' '_' (pyStrip (pyOr m.subject "")))
  rdt ++ "__" ++ subj ++ "__" ++ name

/-- The two output effects of a run: local file writes (path and bytes, in
order) and bucket uploads (blob name and bytes, in order). -/
structure RunEffects where
  localWrites : List (String × List Nat)
  uploads : List (String × List Nat)
  deriving DecidableEq

/-- Exceptions that can escape the download loop: a `binascii.Error` from
base64 decoding, or an `OSError` from opening or writing the local file. -/
inductive IngestError where
  | decodeError (msg : String)
  | writeError (path : String)
  deriving DecidableEq

/-- Shallow embedding of `upload_pdf_to_bucket` (src/main.py lines
101-104): record the upload of the payload under the blob name. -/
def upload_pdf_to_bucket (eff : RunEffects) (blobName : String) (payload : List Nat) : RunEffects :=
  { eff with uploads := eff.uploads ++ [(blobName, payload)] }

/-- Processing of one attachment entry by the loop body of
`download_pdf_attachments` (src/main.py lines 165-185).  `writeFails`
says whether opening or writing a given local path raises.  Returns the
updated effects, the updated saved counter, and the exception if one was
raised. -/
def process_attachment (writeFails : String → Bool) (outdir : Option String)
    (m : MailMessage) (eff : RunEffects) (saved : Nat) (att : Attachment) :
    RunEffects × Nat × Option IngestError :=
  if att.odataType == "#microsoft.graph.fileAttachment" then
    if is_pdf att then
      match att.contentBytes with
      | some cb =>
        if cb ≠ "" then
          match b64decode cb with
          | .error e => (eff, saved, some (.decodeError e))
          | .ok blob =>
            let fname := derive_fname m (att_name att)
            match outdir with
            | some d =>
              let fpath := d ++ "/" ++ fname
              if writeFails fpath then (eff, saved, some (.writeError fpath))
              else
                let eff1 := { eff with localWrites := eff.localWrites ++ [(fpath, blob)] }
                (upload_pdf_to_bucket eff1 fname blob, saved + 1, none)
            | none => (upload_pdf_to_bucket eff fname blob, saved + 1, none)
        else (eff, saved, none)
      | none => (eff, saved, none)
    else (eff, saved, none)
  else (eff, saved, none)

/-- The attachment loop of `download_pdf_attachments` over the entries of
every page in order, stopping at the first raised exception (which
propagates). -/
def process_attachment_list (writeFails : String → Bool) (outdir : Option String)
    (m : MailMessage) : List Attachment → RunEffects → Nat →
    RunEffects × Nat × Option IngestError
  | [], eff, saved => (eff, saved, none)
  | a :: rest, eff, saved =>
    match process_attachment writeFails outdir m eff saved a with
    | (e, s, some err) => (e, s, some err)
    | (e, s, none) => process_attachment_list writeFails outdir m rest e s

/-- Shallow embedding of `download_pdf_attachments` (src/main.py lines
155-191): messages without attachments return immediately with count 0;
otherwise the attachment entries are processed in order. -/
def download_pdf_attachments (writeFails : String → Bool) (outdir : Option String)
    (m : MailMessage) (eff : RunEffects) : RunEffects × Nat × Option IngestError :=
  if m.hasAttachments then process_attachment_list writeFails outdir m m.attachments eff 0
  else (eff, 0, none)

/-! Section 7: the coordinator `main` (src/main.py lines 193-221) and the
UI wrapper `run_ingest_with_capture` (src/streamlit_app.py lines 9-20). -/

/-- The `DOWNLOAD_DIR` configuration global (src/main.py lines 31-33):
`os.environ.get("DOWNLOAD_DIR", "./downloads").strip()`, then replaced by
None when the stripped value is empty.  The argument is the raw
environment variable, `none` when unset. -/
def DOWNLOAD_DIR (env : Option String) : Option String :=
  let d := pyStrip (env.getD "./downloads")
  if d = "" then none else some d

/-- Observable result of one `main()` run: the effects, the two counters
`total_msgs` and `total_pdfs` at the moment the run ended, the escaped
exception if any, and the value the Python function returns to its
caller. -/
structure MainResult where
  effects : RunEffects
  messagesScanned : Nat
  attachmentsSaved : Nat
  error : Option IngestError
  retVal : Option (List (String × List Nat))
  deriving DecidableEq

/-- The message loop of `main` (src/main.py lines 213-215): count each
message, accumulate saved attachments, and stop at the first escaped
exception. -/
def main_loop (writeFails : String → Bool) (outdir : Option String) :
    List MailMessage → RunEffects → Nat → Nat →
    RunEffects × Nat × Nat × Option IngestError
  | [], eff, tm, tp => (eff, tm, tp, none)
  | msg :: rest, eff, tm, tp =>
    match download_pdf_attachments writeFails outdir msg eff with
    | (e, _, some err) => (e, tm + 1, tp, some err)
    | (e, s, none) => main_loop writeFails outdir rest e (tm + 1) (tp + s)

/-- Shallow embedding of `main` (src/main.py lines 193-221).  `msgs` is
the sequence of messages the lister yields for the computed window.  The
function body ends without a return statement, so the value returned to
the caller (`retVal`) is None; on an escaped exception nothing is
returned either. -/
def main (writeFails : String → Bool) (envDownloadDir : Option String)
    (msgs : List MailMessage) : MainResult :=
  let localDir := DOWNLOAD_DIR envDownloadDir
  match main_loop writeFails localDir msgs ⟨[], []⟩ 0 0 with
  | (eff, tm, tp, err) =>
    { effects := eff, messagesScanned := tm, attachmentsSaved := tp,
      error := err, retVal := none }

/-- Shallow embedding of `run_ingest_with_capture` (src/streamlit_app.py
lines 9-20): returns the captured exception and the `files` variable,
which is the value returned by `main` on success and stays at its initial
`[]` when an exception was caught.  `none` in the second component models
the Python value None. -/
def run_ingest_with_capture (writeFails : String → Bool) (envDownloadDir : Option String)
    (msgs : List MailMessage) : Option IngestError × Option (List (String × List Nat)) :=
  let r := main writeFails envDownloadDir msgs
  match r.error with
  | some e => (some e, some [])
  | none => (none, r.retVal)

/-! Section 8: general lemmas shared by the claim theorems. -/

/-- Appending strings appends their character lists. -/
theorem string_data_append (s t : String) : (s ++ t).data = s.data ++ t.data := by
  cases s
  cases t
  rfl

/-- A character list is a suffix of anything it is appended to. -/
theorem endsWithList_append (a b : List Char) : endsWithList (a ++ b) b = true := by
  unfold endsWithList
  rw [List.reverse_append]
  apply decide_eq_true
  have h : b.reverse.length = b.length := List.length_reverse b
  rw [← h]
  exact List.take_left b.reverse a.reverse

/-- The concatenation of the last two pieces of a three-piece string is a
suffix of it. -/
theorem endsWithCL_concat2 (y a b : String) : endsWithCL ((y ++ a) ++ b) (a ++ b) = true := by
  unfold endsWithCL
  rw [string_data_append, string_data_append, string_data_append, List.append_assoc]
  exact endsWithList_append y.data (a.data ++ b.data)

/-- Consuming a block of throttled responses only accumulates their
sleeps; the outcome is decided by the rest of the stream. -/
theorem graph_get_append_throttle (ts rest : List Response)
    (h : ∀ t ∈ ts, isThrottle t.status = true) :
    graph_get (ts ++ rest)
      = (ts.map throttle_sleep ++ (graph_get rest).1, (graph_get rest).2) := by
  induction ts with
  | nil => simp
  | cons t ts ih =>
    have ht : isThrottle t.status = true := h t (by simp)
    have ih2 := ih (fun x hx => h x (by simp [hx]))
    simp [graph_get, ht, ih2]

/-- Every message yielded by the pagination loop comes from one of the
served pages, so a bound holding on every page item holds on every
yielded message. -/
theorem list_messages_mem_bound (pages : List MsgPage) (P : MsgSummary → Prop)
    (h : ∀ p ∈ pages, ∀ m ∈ p.value, P m) :
    ∀ m ∈ list_messages_in_window pages, P m := by
  induction pages with
  | nil => simp [list_messages_in_window]
  | cons p ps ih =>
    intro m hm
    simp only [list_messages_in_window, List.mem_append] at hm
    rcases hm with hm | hm
    · exact h p (by simp) m hm
    · cases hl : p.nextLink
      · rw [hl] at hm
        simp at hm
      · rw [hl] at hm
        simp only [if_true] at hm
        exact ih (fun q hq => h q (by simp [hq])) m (by simpa using hm)

/-- When every served page carries a next-page link, the loop yields the
concatenation of all pages in page order. -/
theorem list_messages_all_linked (pages : List MsgPage)
    (h : ∀ p ∈ pages, p.nextLink = true) :
    list_messages_in_window pages = (pages.map MsgPage.value).flatten := by
  induction pages with
  | nil => rfl
  | cons p ps ih =>
    simp [list_messages_in_window, h p (by simp), ih (fun q hq => h q (by simp [hq]))]

/-- The loop yields the pages up to and including the first page without
a next-page link, and nothing further. -/
theorem list_messages_stops (ps : List MsgPage) (q : MsgPage) (rest : List MsgPage)
    (h : ∀ p ∈ ps, p.nextLink = true) (hq : q.nextLink = false) :
    list_messages_in_window (ps ++ q :: rest)
      = (ps.map MsgPage.value).flatten ++ q.value := by
  induction ps with
  | nil => simp [list_messages_in_window, hq]
  | cons p ps ih =>
    simp [list_messages_in_window, h p (by simp), ih (fun x hx => h x (by simp [hx])),
      List.append_assoc]

/-- Processing one attachment with no local cache directory performs no
local write. -/
theorem process_attachment_localWrites_none (wf : String → Bool) (m : MailMessage)
    (eff : RunEffects) (saved : Nat) (a : Attachment) :
    ((process_attachment wf none m eff saved a).1).localWrites = eff.localWrites := by
  simp only [process_attachment]
  repeat' split
  all_goals simp [upload_pdf_to_bucket]

/-- Processing an attachment list with no local cache directory performs
no local write. -/
theorem process_attachment_list_localWrites_none (wf : String → Bool) (m : MailMessage) :
    ∀ (l : List Attachment) (eff : RunEffects) (saved : Nat),
    ((process_attachment_list wf none m l eff saved).1).localWrites = eff.localWrites := by
  intro l
  induction l with
  | nil => intro eff saved; rfl
  | cons a rest ih =>
    intro eff saved
    simp only [process_attachment_list]
    rcases hp : process_attachment wf none m eff saved a with ⟨e, s, err⟩
    have he : e.localWrites = eff.localWrites := by
      have h2 := process_attachment_localWrites_none wf m eff saved a
      rw [hp] at h2
      exact h2
    cases err
    · simpa [ih e s] using he
    · simpa using he

/-- Downloading one message's attachments with no local cache directory
performs no local write. -/
theorem download_localWrites_none (wf : String → Bool) (m : MailMessage) (eff : RunEffects) :
    ((download_pdf_attachments wf none m eff).1).localWrites = eff.localWrites := by
  simp only [download_pdf_attachments]
  split
  · exact process_attachment_list_localWrites_none wf m m.attachments eff 0
  · rfl

/-- The whole message loop with no local cache directory performs no
local write. -/
theorem main_loop_localWrites_none (wf : String → Bool) :
    ∀ (msgs : List MailMessage) (eff : RunEffects) (tm tp : Nat),
    ((main_loop wf none msgs eff tm tp).1).localWrites = eff.localWrites := by
  intro msgs
  induction msgs with
  | nil => intro eff tm tp; rfl
  | cons msg rest ih =>
    intro eff tm tp
    simp only [main_loop]
    rcases hd : download_pdf_attachments wf none msg eff with ⟨e, s, err⟩
    have he : e.localWrites = eff.localWrites := by
      have h2 := download_localWrites_none wf msg eff
      rw [hd] at h2
      exact h2
    cases err
    · simpa [ih e] using he
    · simpa using he

/-! Section 9: the claim theorems. -/

/-- Claim C1, counterexample: at 2025-03-29T12:00Z (minute 126000), the
window computed by `compute_window_cet` spans the spring daylight-saving
transition and its UTC duration is 1380 minutes (23 hours), not the
claimed 24 hours.  The code adds `timedelta(days=1)` to the zoned local
datetime, which is wall-clock arithmetic, so the claim that the UTC
duration between true instants is always exactly 24 hours is false. -/
theorem compute_window_dst_utc_span_counterexample :
    (compute_window_cet 126000).end_utc - (compute_window_cet 126000).start_utc = 1380
    ∧ ¬ ((compute_window_cet 126000).end_utc - (compute_window_cet 126000).start_utc = 1440) := by
  decide

/-- Claim C1, amended: for every instant `now`, the window spans exactly
24 wall-clock hours in the configured zone; its UTC duration measured
between true instants is 1440 minutes plus the zone-offset difference
between start and end, hence exactly 24 hours whenever no
daylight-saving transition lies inside the window (and 23 or 25 hours
when one does). -/
theorem compute_window_utc_duration (now : Int) :
    (compute_window_cet now).end_local - (compute_window_cet now).start_local = 1440
    ∧ (compute_window_cet now).end_utc - (compute_window_cet now).start_utc
        = 1440 + (offsetAtLocal (compute_window_cet now).start_local
                  - offsetAtLocal (compute_window_cet now).end_local)
    ∧ (offsetAtLocal (compute_window_cet now).start_local
          = offsetAtLocal (compute_window_cet now).end_local →
        (compute_window_cet now).end_utc - (compute_window_cet now).start_utc = 1440) := by
  have h2 : (compute_window_cet now).start_utc
      = localToUTC (compute_window_cet now).start_local := rfl
  have h3 : (compute_window_cet now).end_utc
      = localToUTC (compute_window_cet now).end_local := rfl
  have h1 : (compute_window_cet now).end_local
      = (compute_window_cet now).start_local + 1440 := rfl
  rw [h2, h3, h1]
  unfold localToUTC
  generalize offsetAtLocal ((compute_window_cet now).start_local) = a
  generalize offsetAtLocal ((compute_window_cet now).start_local + 1440) = b
  exact ⟨by omega, by omega, fun h => by omega⟩

/-- Witness for `compute_window_utc_duration` at 2025-01-01T10:00Z, a day
with no transition inside the window: the UTC duration is 24 hours. -/
theorem compute_window_utc_duration_witness :
    (compute_window_cet 600).end_utc - (compute_window_cet 600).start_utc = 1440 :=
  (compute_window_utc_duration 600).2.2 (by decide)

/-- Claim C6: for every instant `now`, `compute_window_cet` implements
the specified algorithm with zone Europe/Copenhagen and cutoff hour 6:
the cutoff is the same calendar date as `now` in the zone at 06:00, the
start is the cutoff when `now` is at or past it and the cutoff minus 24
hours otherwise, the end is the start plus 24 hours, and both endpoints
are converted back to UTC for output. -/
theorem compute_window_follows_spec_algorithm (now : Int) :
    ((compute_window_cet now).start_utc, (compute_window_cet now).end_utc)
      = computeWindow_spec now 6
    ∧ (today_six now) % 1440 = 360
    ∧ (today_six now) / 1440 = (utcToLocal now) / 1440
    ∧ (localToUTC (today_six now) ≤ now →
        (compute_window_cet now).start_local = today_six now)
    ∧ (now < localToUTC (today_six now) →
        (compute_window_cet now).start_local = today_six now - 1440)
    ∧ (compute_window_cet now).end_local = (compute_window_cet now).start_local + 1440
    ∧ (compute_window_cet now).start_utc = localToUTC (compute_window_cet now).start_local
    ∧ (compute_window_cet now).end_utc = localToUTC (compute_window_cet now).end_local := by
  have hs : (compute_window_cet now).start_local
      = if localToUTC (today_six now) ≤ now then today_six now else today_six now - 1440 := rfl
  refine ⟨rfl, ?_, ?_, ?_, ?_, rfl, rfl, rfl⟩
  · simp only [today_six]
    omega
  · simp only [today_six]
    omega
  · intro h
    rw [hs, if_pos h]
  · intro h
    rw [hs, if_neg (not_le.mpr h)]

/-- Witness for `compute_window_follows_spec_algorithm` at
2025-01-01T10:00Z, which is past the 06:00 cutoff. -/
theorem compute_window_follows_spec_algorithm_witness :
    (compute_window_cet 600).start_local = today_six 600
    ∧ ((compute_window_cet 600).start_utc, (compute_window_cet 600).end_utc)
        = computeWindow_spec 600 6 :=
  ⟨(compute_window_follows_spec_algorithm 600).2.2.2.1 (by decide),
   (compute_window_follows_spec_algorithm 600).1⟩

/-- Claim C2: on a window with zero messages, `main` finishes without an
exception with both counters zero, but the Python function body has no
return statement, so the value returned to the caller is None rather
than an IngestResult; in fact every run returns None, and the UI wrapper
`run_ingest_with_capture` therefore never receives counts or artifacts. -/
theorem main_returns_no_ingest_result :
    main (fun _ => false) (some "") []
      = { effects := ⟨[], []⟩, messagesScanned := 0, attachmentsSaved := 0,
          error := none, retVal := none }
    ∧ (∀ (wf : String → Bool) (env : Option String) (msgs : List MailMessage),
        (main wf env msgs).retVal = none)
    ∧ run_ingest_with_capture (fun _ => false) (some "") [] = (none, none) := by
  refine ⟨by decide, fun wf env msgs => rfl, by decide⟩

/-- Claim C3: for a GET whose first responses are all throttled (429, 503
or 504) and whose next response is not: each throttled response causes a
sleep of the Retry-After value when present and numeric and of the fixed
default 3 seconds otherwise, and the same request is retried after every
one of the arbitrarily many throttled responses; a non-throttled status
at least 400 raises an error carrying the status and body with no
further retry; a status below 400 (in particular 2xx) has its body
decoded and returned. -/
theorem graph_get_retry_policy (ts : List Response) (r : Response)
    (hts : ∀ t ∈ ts, isThrottle t.status = true) (hr : isThrottle r.status = false) :
    (∀ (t : Response) (ra : String), t.retryAfter = some ra → pyIsDigitStr ra = true →
        throttle_sleep t = digitsToNat ra.data)
    ∧ (∀ t : Response, (∀ ra, t.retryAfter = some ra → pyIsDigitStr ra = false) →
        throttle_sleep t = 3)
    ∧ (400 ≤ r.status →
        graph_get (ts ++ [r]) = (ts.map throttle_sleep, .httpError r.status r.body))
    ∧ (r.status < 400 →
        graph_get (ts ++ [r]) = (ts.map throttle_sleep, .ok r.body)) := by
  have happ := graph_get_append_throttle ts [r] hts
  refine ⟨?_, ?_, ?_, ?_⟩
  · intro t ra h hd
    simp [throttle_sleep, h, hd]
  · intro t h
    cases haf : t.retryAfter with
    | none => simp [throttle_sleep, haf]
    | some ra => simp [throttle_sleep, haf, h ra haf]
  · intro h4
    have hb : graph_get [r] = ([], GraphOutcome.httpError r.status r.body) := by
      simp [graph_get, hr, h4]
    rw [happ, hb]
    simp
  · intro h4
    have hb : graph_get [r] = ([], GraphOutcome.ok r.body) := by
      have hlt : ¬ (400 ≤ r.status) := by omega
      simp [graph_get, hr, hlt]
    rw [happ, hb]
    simp

/-- Witness for `graph_get_retry_policy`: one 429 with a numeric
Retry-After of 7 followed by a 200 sleeps 7 seconds and returns the
decoded body. -/
theorem graph_get_retry_policy_witness :
    graph_get [⟨429, some "7", "throttled"⟩, ⟨200, none, "payload"⟩] = ([7], .ok "payload") :=
  (graph_get_retry_policy [⟨429, some "7", "throttled"⟩] ⟨200, none, "payload"⟩
    (by decide) (by decide)).2.2.2 (by decide)

/-- Claim C4: a message whose first attachment has an undecodable payload
(here the one-character base64 string A) raises out of the loop, so the
decodable sibling attachment is never saved and, at the run level, the
following message is never processed: the failure is not isolated to the
affected attachment. -/
theorem decode_failure_aborts_run :
    download_pdf_attachments (fun _ => false) none
        ⟨"m1", some "S", some "2025-03-29T12:00:00Z", true,
          [⟨"#microsoft.graph.fileAttachment", some "a.pdf", some "application/pdf", some "A"⟩,
           ⟨"#microsoft.graph.fileAttachment", some "b.pdf", none, some "QQ=="⟩]⟩
        ⟨[], []⟩
      = (⟨[], []⟩, 0, some (.decodeError "Invalid base64-encoded string"))
    ∧ (main (fun _ => false) (some "")
        [⟨"m1", some "S", some "2025-03-29T12:00:00Z", true,
          [⟨"#microsoft.graph.fileAttachment", some "a.pdf", some "application/pdf", some "A"⟩,
           ⟨"#microsoft.graph.fileAttachment", some "b.pdf", none, some "QQ=="⟩]⟩,
         ⟨"m2", some "T", some "2025-03-29T13:00:00Z", true,
          [⟨"#microsoft.graph.fileAttachment", some "c.pdf", none, some "QQ=="⟩]⟩])
      = { effects := ⟨[], []⟩, messagesScanned := 1, attachmentsSaved := 0,
          error := some (.decodeError "Invalid base64-encoded string"), retVal := none } :=
  ⟨by decide, by decide⟩

/-- Claim C5: the local cache write happens before the remote upload, so
when the local write of an artifact fails the upload of that artifact is
never attempted (the exception propagates instead); with the write
succeeding the same artifact is both written locally and uploaded. -/
theorem local_write_failure_blocks_upload :
    download_pdf_attachments (fun _ => true) (some "cache")
        ⟨"m1", some "S", some "2025-03-29T12:00:00Z", true,
          [⟨"#microsoft.graph.fileAttachment", some "a.pdf", none, some "QQ=="⟩]⟩
        ⟨[], []⟩
      = (⟨[], []⟩, 0, some (.writeError "cache/20250329T120000Z__S__a.pdf"))
    ∧ download_pdf_attachments (fun _ => false) (some "cache")
        ⟨"m1", some "S", some "2025-03-29T12:00:00Z", true,
          [⟨"#microsoft.graph.fileAttachment", some "a.pdf", none, some "QQ=="⟩]⟩
        ⟨[], []⟩
      = (⟨[("cache/20250329T120000Z__S__a.pdf", [65])],
           [("20250329T120000Z__S__a.pdf", [65])]⟩, 1, none) :=
  ⟨by decide, by decide⟩

/-- Claim C7: the lister requests page size 50, descending order on
receivedDateTime, the four-field projection and the ge/lt filter naming
the half-open window; and, whenever the server honours that filter (every
served page item lies in the window), every yielded message lies in the
window; the loop yields every item of every page in page order and stops
at the first page without a next-page link. -/
theorem list_messages_policy (s e : Int) (sIso eIso : String) (pages : List MsgPage)
    (hserver : ∀ p ∈ pages, ∀ m ∈ p.value, s ≤ m.receivedAt ∧ m.receivedAt < e) :
    (list_messages_params sIso eIso).top = "50"
    ∧ (list_messages_params sIso eIso).orderby = "receivedDateTime desc"
    ∧ (list_messages_params sIso eIso).select = "id,subject,receivedDateTime,hasAttachments"
    ∧ (list_messages_params sIso eIso).filter
        = "receivedDateTime ge " ++ sIso ++ " and receivedDateTime lt " ++ eIso
    ∧ (∀ m ∈ list_messages_in_window pages, s ≤ m.receivedAt ∧ m.receivedAt < e)
    ∧ (∀ (ps : List MsgPage) (q : MsgPage) (rest : List MsgPage),
        (∀ p ∈ ps, p.nextLink = true) → q.nextLink = false →
        list_messages_in_window (ps ++ q :: rest)
          = (ps.map MsgPage.value).flatten ++ q.value)
    ∧ ((∀ p ∈ pages, p.nextLink = true) →
        list_messages_in_window pages = (pages.map MsgPage.value).flatten) := by
  refine ⟨rfl, rfl, rfl, rfl, ?_, ?_, ?_⟩
  · exact list_messages_mem_bound pages _ hserver
  · intro ps q rest h1 h2
    exact list_messages_stops ps q rest h1 h2
  · intro h
    exact list_messages_all_linked pages h

/-- Witness for `list_messages_policy` on one fully linked page. -/
theorem list_messages_policy_witness :
    list_messages_in_window [⟨[⟨"m1", 5, true⟩], true⟩] = [⟨"m1", 5, true⟩] := by
  have h := (list_messages_policy 0 10 "S" "E" [⟨[⟨"m1", 5, true⟩], true⟩]
    (by decide)).2.2.2.2.2.2 (by decide)
  simpa using h

/-- Claim C8: for a file attachment carrying a nonempty name, the PDF
classification holds exactly when the declared content type lowercases to
application/pdf or the lowercased filename ends in .pdf. -/
theorem is_pdf_classification (a : Attachment) (n : String)
    (hname : a.name = some n) (hne : n ≠ "") :
    is_pdf a = true
      ↔ (pyLower (att_ctype a) = "application/pdf"
          ∨ endsWithCL (pyLower n) ".pdf" = true) := by
  have hn : att_name a = n := by
    simp [att_name, pyOr, hname, hne]
  simp [is_pdf, hn, Bool.or_eq_true, beq_iff_eq]

/-- Witness for `is_pdf_classification`: the three examples from the
claim, Invoice.PDF without content type, notes.txt declared
application/pdf, and notes.txt declared text/plain. -/
theorem is_pdf_classification_witness :
    is_pdf ⟨"#microsoft.graph.fileAttachment", some "Invoice.PDF", none, none⟩ = true
    ∧ is_pdf ⟨"#microsoft.graph.fileAttachment", some "notes.txt", some "application/pdf", none⟩
        = true
    ∧ is_pdf ⟨"#microsoft.graph.fileAttachment", some "notes.txt", some "text/plain", none⟩
        = false :=
  ⟨(is_pdf_classification _ "Invoice.PDF" rfl (by decide)).mpr (Or.inr (by decide)),
   (is_pdf_classification _ "notes.txt" rfl (by decide)).mpr (Or.inl (by decide)),
   by decide⟩

/-- Claim C9, counterexample: with the DOWNLOAD_DIR environment variable
absent, the configuration parses to the default ./downloads, so local
caching is enabled and a run over a message with a PDF attachment does
perform a local file write, contradicting the claim that an absent
setting disables local caching. -/
theorem download_dir_absent_caches_counterexample :
    DOWNLOAD_DIR none = some "./downloads"
    ∧ (main (fun _ => false) none
        [⟨"m1", some "S", some "2025-03-29T12:00:00Z", true,
          [⟨"#microsoft.graph.fileAttachment", some "a.pdf", none, some "QQ=="⟩]⟩]).effects.localWrites
      = [("./downloads/20250329T120000Z__S__a.pdf", [65])] :=
  ⟨by decide, by decide⟩

/-- Claim C9, amended: a present but empty (or whitespace-only)
DOWNLOAD_DIR disables local caching, and every run under a configuration
that parses to no cache directory performs no local file writes; an
absent variable instead defaults to ./downloads, enabling caching. -/
theorem download_dir_policy (env : Option String) (wf : String → Bool)
    (msgs : List MailMessage) (h : DOWNLOAD_DIR env = none) :
    DOWNLOAD_DIR (some "") = none
    ∧ DOWNLOAD_DIR (some " ") = none
    ∧ DOWNLOAD_DIR none = some "./downloads"
    ∧ (main wf env msgs).effects.localWrites = [] := by
  refine ⟨by decide, by decide, by decide, ?_⟩
  have hm : (main wf env msgs).effects
      = (main_loop wf (DOWNLOAD_DIR env) msgs ⟨[], []⟩ 0 0).1 := rfl
  rw [hm, h]
  exact main_loop_localWrites_none wf msgs ⟨[], []⟩ 0 0

/-- Witness for `download_dir_policy`: with an empty DOWNLOAD_DIR, a run
that saves a PDF performs no local write. -/
theorem download_dir_policy_witness :
    (main (fun _ => false) (some "")
      [⟨"m1", some "S", some "2025-03-29T12:00:00Z", true,
        [⟨"#microsoft.graph.fileAttachment", some "a.pdf", none, some "QQ=="⟩]⟩]).effects.localWrites
      = [] :=
  (download_dir_policy (some "") (fun _ => false)
    [⟨"m1", some "S", some "2025-03-29T12:00:00Z", true,
      [⟨"#microsoft.graph.fileAttachment", some "a.pdf", none, some "QQ=="⟩]⟩]
    (by decide)).2.2.2

/-- Claim C10: an attachment whose name field is missing or empty gets
the substitute name attachment, is classified as PDF exactly when its
declared content type lowercases to application/pdf, and its derived
storage key ends with the segment of two underscores followed by
attachment. -/
theorem attachment_default_name (a : Attachment) (m : MailMessage)
    (hname : a.name = none ∨ a.name = some "") :
    att_name a = "attachment"
    ∧ (is_pdf a = true ↔ pyLower (att_ctype a) = "application/pdf")
    ∧ endsWithCL (derive_fname m (att_name a)) "__attachment" = true := by
  have hn : att_name a = "attachment" := by
    rcases hname with h | h <;> simp [att_name, pyOr, h]
  have hend : endsWithCL (pyLower "attachment") ".pdf" = false := by decide
  refine ⟨hn, ?_, ?_⟩
  · simp [is_pdf, hn, hend, beq_iff_eq]
  · rw [hn]
    have hf : derive_fname m "attachment"
        = ((removeChar '-' (removeChar ':' (m.receivedDateTime.getD "")) ++ "__"
            ++ takeChars 80 (mapChar '/' '_' (pyStrip (pyOr m.subject "")))) ++ "__")
          ++ "attachment" := rfl
    rw [hf]
    have h2 := endsWithCL_concat2
      (removeChar '-' (removeChar ':' (m.receivedDateTime.getD "")) ++ "__"
        ++ takeChars 80 (mapChar '/' '_' (pyStrip (pyOr m.subject "")))) "__" "attachment"
    simpa using h2

/-- Witness for `attachment_default_name`: a nameless attachment declared
application/pdf is saved under a key ending in the attachment segment. -/
theorem attachment_default_name_witness :
    att_name ⟨"#microsoft.graph.fileAttachment", none, some "application/pdf", some "QQ=="⟩
      = "attachment"
    ∧ is_pdf ⟨"#microsoft.graph.fileAttachment", none, some "application/pdf", some "QQ=="⟩
      = true
    ∧ endsWithCL
        (derive_fname ⟨"m1", some "S", some "2025-03-29T12:00:00Z", true, []⟩ "attachment")
        "__attachment" = true
    ∧ (process_attachment (fun _ => false) none
        ⟨"m1", some "S", some "2025-03-29T12:00:00Z", true, []⟩ ⟨[], []⟩ 0
        ⟨"#microsoft.graph.fileAttachment", none, some "application/pdf", some "QQ=="⟩).1.uploads
      = [("20250329T120000Z__S__attachment", [65])] := by
  have h := attachment_default_name
    ⟨"#microsoft.graph.fileAttachment", none, some "application/pdf", some "QQ=="⟩
    ⟨"m1", some "S", some "2025-03-29T12:00:00Z", true, []⟩ (Or.inl rfl)
  exact ⟨h.1, (h.2.1).mpr (by decide), by simpa [h.1] using h.2.2, by decide⟩

end VesselCert
